import Mathlib

/-!
# Verification of ironflow's dtype/port model

A shallow embedding of the parts of `jan-janssen/ironflow` that the claims
touch: the `DType` hierarchy of `ironflow/model/dtypes.py`, the typed ports of
`ironflow/model/port.py` (validity checks, batching, serialization), and the
widget dispatch of `ironflow/gui/workflows/boxes/node_interface/control.py`.

Python classes are modelled by a small concrete universe `PyClass` with the
`issubclass` facts the code relies on; Python values by `PyVal` (an object
carries its class and an identity payload, so two distinct instances of the
same class stay distinguishable).  The dtype classes defined in `dtypes.py`
form a flat hierarchy below `DType`, modelled by `DTypeClass`.
-/

namespace Ironflow

/-- The plain (non-DType) Python classes the dtype code mentions:
`NoneType`, `int`, `bool`, `float`, `str`, `np.integer`, `np.floating`,
`np.bool_`, `np.str_`, `list`, `np.ndarray` and `object`. -/
inductive PyClass where
  | pNoneType
  | pInt
  | pBool
  | pFloat
  | pStr
  | pNpInteger
  | pNpFloating
  | pNpBool
  | pNpStr
  | pList
  | pNdarray
  | pObject
deriving DecidableEq

/-- `issubclass` on the plain classes: reflexive, everything below `object`,
plus the genuine Python facts `bool <= int` and `np.str_ <= str`. -/
def issubclassPlain (a b : PyClass) : Bool :=
  a == b || b == PyClass.pObject
    || (a == PyClass.pBool && b == PyClass.pInt)
    || (a == PyClass.pNpStr && b == PyClass.pStr)

/-- The dtype classes of `dtypes.py` (plus `Untyped`, which `port.py` imports
from the same module).  All of them subclass `DType` directly. -/
inductive DTypeClass where
  | base
  | data
  | batchedData
  | integer
  | float
  | boolean
  | char
  | string
  | choice
  | listD
  | untyped
deriving DecidableEq, Fintype

/-- `issubclass` restricted to the dtype classes: the hierarchy in
`dtypes.py` is flat, every class directly extends `DType`. -/
def dtypeIsSubclass (a b : DTypeClass) : Bool :=
  a == b || b == DTypeClass.base

/-- Non-DType Python values: `None`, a generic instance of a class (the
`payload` keeps distinct instances of one class distinguishable under `==`),
a string, and a list. -/
inductive PyVal where
  | vnone
  | vobj (c : PyClass) (payload : Nat)
  | vstr (s : String)
  | vlist (xs : List PyVal)

mutual

/-- Python `==` on the modelled values (used by `in`-membership checks). -/
def pyEq : PyVal → PyVal → Bool
  | PyVal.vnone, PyVal.vnone => true
  | PyVal.vobj c p, PyVal.vobj d q => c == d && p == q
  | PyVal.vstr s, PyVal.vstr t => s == t
  | PyVal.vlist xs, PyVal.vlist ys => pyEqList xs ys
  | _, _ => false

/-- Elementwise Python `==` on lists. -/
def pyEqList : List PyVal → List PyVal → Bool
  | [], [] => true
  | x :: xs, y :: ys => pyEq x y && pyEqList xs ys
  | _, _ => false

end

/-- `type(v)` for the values above. -/
def typeOf : PyVal → PyClass
  | PyVal.vnone => PyClass.pNoneType
  | PyVal.vobj c _ => c
  | PyVal.vstr _ => PyClass.pStr
  | PyVal.vlist _ => PyClass.pList

/-- Python `isinstance(x, c)` for plain values and classes. -/
def isinstance (x : PyVal) (c : PyClass) : Bool :=
  issubclassPlain (typeOf x) c

/-- The state of a `DType` instance: its (dynamic) class, the normalised
`valid_classes` list, `allow_none`, the `batched` flag read and written by
`port.py`, and `items` (meaningful for `Choice`). -/
structure DTypeVal where
  cls : DTypeClass
  valid_classes : List PyClass
  allow_none : Bool
  batched : Bool
  items : List PyVal

/-- An argument to `DType.matches`: either a `DType` instance or a plain
value (possibly `None`), mirroring the annotation `DType | Any | None`. -/
inductive PyArg where
  | dt (d : DTypeVal)
  | v (x : PyVal)

/-- `DType._other_types_are_subset(other, reference)`: every class in
`other` is a subclass of at least one class in `reference`. -/
def otherTypesAreSubset (other reference : List PyClass) : Bool :=
  other.all (fun o => reference.any (fun ref => issubclassPlain o ref))

/-- `DType._dtype_matches`: `val` must be an instance of `self.__class__`,
`val.valid_classes` a subset (classwise) of `self.valid_classes`, and `val`
may not allow `None` unless `self` does. -/
def dtypeMatches (self other : DTypeVal) : Bool :=
  if dtypeIsSubclass other.cls self.cls then
    otherTypesAreSubset other.valid_classes self.valid_classes
      && !(other.allow_none && !self.allow_none)
  else
    false

/-- The base-class `DType._instance_matches`: `val` is an instance of some
class in `valid_classes`. -/
def instMatchesBase (self : DTypeVal) (x : PyVal) : Bool :=
  self.valid_classes.any (fun c => isinstance x c)

/-- `Choice._instance_matches`: membership in `items` (Python `in`, which
compares with `==`). -/
def instMatchesChoice (self : DTypeVal) (x : PyVal) : Bool :=
  self.items.any (fun it => pyEq x it)

/-- `BatchedData._instance_matches`: `val` must be a list (or numpy array,
also modelled by `vlist`), and the type of every element must be a subclass
of some valid class.  The `set(...)` in the source only deduplicates the
element types, which does not change the universally quantified check. -/
def instMatchesBatched (self : DTypeVal) (x : PyVal) : Bool :=
  match x with
  | PyVal.vlist xs => otherTypesAreSubset (xs.map typeOf) self.valid_classes
  | _ => false

/-- `self._instance_matches(x)` with Python dynamic dispatch: `Choice` and
`BatchedData` override the base implementation, every other dtype class
inherits it. -/
def instMatches (self : DTypeVal) (x : PyVal) : Bool :=
  match self.cls with
  | DTypeClass.choice => instMatchesChoice self x
  | DTypeClass.batchedData => instMatchesBatched self x
  | _ => instMatchesBase self x

/-- `DType.matches` (named `matchesPy` here because `matches` is a Lean
keyword): dispatch on whether the argument is a `DType`, `None`, or a plain
value (`dtypes.py` lines 76-82). -/
def matchesPy (self : DTypeVal) : PyArg → Bool
  | PyArg.dt d => dtypeMatches self d
  | PyArg.v PyVal.vnone => self.allow_none
  | PyArg.v x => instMatches self x

/-! ## Ports (`ironflow/model/port.py`) -/

/-- The state a port exposes to `HasDType.dtype_ok` and `HasTypes.ready`:
the optional dtype, the current value, and the outcome of the ontology
check `HasOType.otype_ok`, which calls into the third-party ontology
library and is therefore kept abstract as a recorded Boolean. -/
structure TypedPort where
  dtype : Option DTypeVal
  val : PyVal
  otype_ok : Bool

/-- `HasDType.dtype_ok` (`port.py` lines 30-38).  `valid_val` is the
third-party `ryvencore` validity check the property forwards to, kept
abstract as a parameter. -/
def dtype_ok (valid_val : DTypeVal → PyVal → Bool) (p : TypedPort) : Bool :=
  match p.dtype with
  | some d =>
      match p.val with
      | PyVal.vnone => d.allow_none
      | v => valid_val d v
  | none => true

/-- `HasTypes.ready` (`port.py` lines 111-114). -/
def ready (valid_val : DTypeVal → PyVal → Bool) (p : TypedPort) : Bool :=
  dtype_ok valid_val p && p.otype_ok

/-- The state of a `NodeInput` that `batch`/`unbatch` read and write: the
dtype (always set by `NodeInput.__init__`, but `Optional` in the guard),
the value, the number of connections, and a counter of
`self._update_node()` calls (each of which triggers `node.update`). -/
structure NodeInputState where
  dtype : Option DTypeVal
  val : PyVal
  connections : Nat
  updates : Nat

/-- Python `x[-1]`: the last element of a list (or last character of a
string); `none` models the `TypeError`/`IndexError` raised otherwise. -/
def pyLast : PyVal → Option PyVal
  | PyVal.vlist xs => xs.getLast?
  | PyVal.vstr s => (s.toList.getLast?).map (fun c => PyVal.vstr (String.mk [c]))
  | _ => none

/-- `NodeInput.batch` (`port.py` lines 139-144): when a dtype is present and
not yet batched, set `batched`, wrap `val` into a one-element list if the
port has no connections, and trigger a node update. -/
def batch (s : NodeInputState) : NodeInputState :=
  match s.dtype with
  | some d =>
      if !d.batched then
        { s with
          dtype := some { d with batched := true },
          val := if s.connections == 0 then PyVal.vlist [s.val] else s.val,
          updates := s.updates + 1 }
      else s
  | none => s

/-- `NodeInput.unbatch` (`port.py` lines 146-151): when a dtype is present
and batched, clear `batched`, replace `val` by `val[-1]` if the port has no
connections, and trigger a node update.  `none` models the exception Python
raises when `val[-1]` is undefined. -/
def unbatch (s : NodeInputState) : Option NodeInputState :=
  match s.dtype with
  | some d =>
      if d.batched then
        if s.connections == 0 then
          match pyLast s.val with
          | some v =>
              some { s with
                     dtype := some { d with batched := false },
                     val := v,
                     updates := s.updates + 1 }
          | none => none
        else
          some { s with
                 dtype := some { d with batched := false },
                 updates := s.updates + 1 }
      else some s
  | none => some s

/-! ## Port serialization (`NodeInput.data`, `NodeOutput.data`) -/

/-- The keys of a Python dict modelled as an association list. -/
def dictKeys (d : List (String × PyVal)) : List String :=
  d.map Prod.fst

/-- Python `d[k] = v`: replace the value in place when the key exists,
append otherwise (insertion order is preserved). -/
def dictSet (d : List (String × PyVal)) (k : String) (v : PyVal) :
    List (String × PyVal) :=
  if (dictKeys d).contains k then
    d.map (fun kv => if kv.fst == k then (k, v) else kv)
  else
    d ++ [(k, v)]

/-- Python `d.get(k)` on the association-list dict. -/
def dictGet (d : List (String × PyVal)) (k : String) : Option PyVal :=
  (d.find? (fun kv => kv.fst == k)).map Prod.snd

/-- An ontology type: only `otype.namespace.name` and `otype.name` are read
by the serialization code. -/
structure OTypeVal where
  namespaceName : String
  name : String

/-- `str(self.dtype)`: ryvencore renders a dtype as `DType.<classname>`
(this is the format `DType.from_str` parses back). -/
def className : DTypeClass → String
  | DTypeClass.base => "DType"
  | DTypeClass.data => "Data"
  | DTypeClass.batchedData => "BatchedData"
  | DTypeClass.integer => "Integer"
  | DTypeClass.float => "Float"
  | DTypeClass.boolean => "Boolean"
  | DTypeClass.char => "Char"
  | DTypeClass.string => "String"
  | DTypeClass.choice => "Choice"
  | DTypeClass.listD => "List"
  | DTypeClass.untyped => "Untyped"

/-- `str` of a dtype instance. -/
def dtypeStr (d : DTypeVal) : String :=
  "DType." ++ className d.cls

/-- `NodeOutput.data` (`port.py` lines 182-193): start from the core
(ryvencore) serialization `core`, then add the dtype keys when a dtype is
present and the otype keys when an otype is present.  `ser` abstracts the
third-party `serialize(self.dtype.get_state())`. -/
def nodeOutputData (ser : DTypeVal → PyVal) (core : List (String × PyVal))
    (dtype : Option DTypeVal) (otype : Option OTypeVal) :
    List (String × PyVal) :=
  let d1 :=
    match dtype with
    | some dt =>
        dictSet (dictSet core ("dtype") (PyVal.vstr (dtypeStr dt)))
          ("dtype state") (ser dt)
    | none => core
  match otype with
  | some ot =>
      dictSet (dictSet d1 ("otype_namespace") (PyVal.vstr ot.namespaceName))
        ("otype_name") (PyVal.vstr ot.name)
  | none => d1

/-- `NodeInput.data` (`port.py` lines 153-160): only the two otype keys are
added, and only when an otype is present. -/
def nodeInputData (core : List (String × PyVal)) (otype : Option OTypeVal) :
    List (String × PyVal) :=
  match otype with
  | some ot =>
      dictSet (dictSet core ("otype_namespace") (PyVal.vstr ot.namespaceName))
        ("otype_name") (PyVal.vstr ot.name)
  | none => core

/-! ## `DType.__init__` and `BatchedData.__init__` (`dtypes.py`) -/

/-- The `valid_classes` argument of `DType.__init__`: `None`, a single
class, or a list object (which carries an identity so that aliasing is
observable). -/
inductive VCArg where
  | noneA
  | single (c : PyClass)
  | listA (ident : Nat) (elems : List PyClass)

/-- The elementwise content the constructor stores for each argument shape
(`dtypes.py` lines 34-40). -/
def normalizeValidClasses : VCArg → List PyClass
  | VCArg.noneA => []
  | VCArg.single c => [c]
  | VCArg.listA _ els => els

/-- The identity of the argument list, when the argument is a list. -/
def vcArgIdent : VCArg → Option Nat
  | VCArg.listA i _ => some i
  | _ => none

/-- A Python list object: identity plus elements. -/
structure PyListObj where
  ident : Nat
  elems : List PyClass

/-- `ryvencore`'s `DType.add_data`: record an attribute name for
serialization (idempotent). -/
def addData (keys : List String) (k : String) : List String :=
  if keys.contains k then keys else keys ++ [k]

/-- The fields of a freshly initialised `DType` that the claims observe. -/
structure DTypeFields where
  valid_classes : PyListObj
  allow_none : Bool
  data_keys : List String

/-- `DType.__init__` (`dtypes.py` lines 19-43), restricted to the fields the
claims observe.  When `_load_state` is `None` the constructor normalises
`valid_classes` into a freshly allocated list (`fresh` is the identity of
the new allocation) and sets `allow_none`; in either case both field names
are registered via `add_data`. -/
def dtypeInitFields (loadState : Option DTypeFields) (fresh : Nat)
    (vc : VCArg) (allow_none : Bool) (keys0 : List String) : DTypeFields :=
  let fields :=
    match loadState with
    | some st => st
    | none =>
        { valid_classes :=
            match vc with
            | VCArg.listA _ els => ⟨fresh, els⟩
            | VCArg.single c => ⟨fresh, [c]⟩
            | VCArg.noneA => ⟨fresh, []⟩,
          allow_none := allow_none,
          data_keys := keys0 }
  { fields with
    data_keys :=
      addData (addData fields.data_keys ("valid_classes")) ("allow_none") }

/-- `BatchedData.__init__` (`dtypes.py` lines 117-141): passing both
`batched_dtype` and `valid_classes` raises `ValueError`; a `batched_dtype`
donates its `valid_classes`; the result is a `BatchedData` dtype whose
other fields start in their default state. -/
def batchedDataInit (batched_dtype : Option DTypeVal) (vc : VCArg)
    (allow_none : Bool) : Except String DTypeVal :=
  match batched_dtype with
  | some bd =>
      match vc with
      | VCArg.noneA =>
          Except.ok ⟨DTypeClass.batchedData, bd.valid_classes, allow_none,
            false, []⟩
      | _ =>
          Except.error
            ("Only one of batched_dtype and valid_classes may be provided")
  | none =>
      Except.ok ⟨DTypeClass.batchedData, normalizeValidClasses vc, allow_none,
        false, []⟩

/-! ## `DType.from_str` (`dtypes.py` lines 45-52) -/

/-- The classes the lookup loop iterates over, in source order. -/
def fromStrClasses : List DTypeClass :=
  [DTypeClass.boolean, DTypeClass.char, DTypeClass.choice, DTypeClass.data,
   DTypeClass.float, DTypeClass.integer, DTypeClass.listD, DTypeClass.string]

/-- `DType.from_str`: return the first class whose rendered name matches,
`None` otherwise. -/
def from_str (s : String) : Option DTypeClass :=
  fromStrClasses.findSome?
    (fun c => if s == "DType." ++ className c then some c else none)

/-! ## Widget dispatch
(`ironflow/gui/workflows/boxes/node_interface/control.py`) -/

/-- The ipywidgets objects `NodeController.input_field_list` constructs,
restricted to the attributes the claims observe. -/
inductive IpyWidget where
  | textW (value : String) (disabled : Bool)
  | intText (value : PyVal) (disabled : Bool)
  | floatText (value : PyVal) (disabled : Bool)
  | checkbox (value : PyVal) (disabled : Bool)
  | dropdown (value : PyVal) (options : List PyVal) (disabled : Bool)
  | labelW (text : String)
  | toggleButton (description : String) (disabled : Bool) (value : Bool)
  | resetButton (disabled : Bool)

/-- Python `str` of a value, used only as the displayed text of the `Text`
widgets (its exact rendering is irrelevant to the claims). -/
def pyStr : PyVal → String
  | PyVal.vnone => "None"
  | PyVal.vstr s => s
  | PyVal.vobj _ _ => "object"
  | PyVal.vlist _ => "list"

/-- What `input_field_list` reads from one input port: its dtype (always
present, `NodeInput.__init__` substitutes `Untyped()` for `None` at
`port.py` line 132), its value, the value recovered from the serialized
dtype state (used only when `val` is `None`), the connection count, the
label and type strings, and the two node-level flags. -/
structure GuiInput where
  dtype : DTypeVal
  val : PyVal
  stateVal : PyVal
  connections : Nat
  label_str : String
  type_ : String
  blockUpdates : Bool
  isBatchingNode : Bool

/-- The `if`/`elif` chain of `control.py` lines 96-140 choosing the input
widget from the dtype's class name, the batched flag recovered from the
dtype state, the (possibly state-recovered) value, the dtype's `items` and
the disabled flag. -/
def chooseInputWidget (name : String) (batched : Bool) (val : PyVal)
    (items : List PyVal) (disabled : Bool) : IpyWidget :=
  if batched then
    IpyWidget.textW ("Batched " ++ name) true
  else if name == "Integer" then
    IpyWidget.intText val disabled
  else if name == "Float" then
    IpyWidget.floatText val disabled
  else if name == "Boolean" then
    IpyWidget.checkbox val disabled
  else if name == "Choice" then
    IpyWidget.dropdown val items disabled
  else if name == "String" || name == "Char" then
    IpyWidget.textW (pyStr val) disabled
  else
    IpyWidget.textW (pyStr val) true

/-- `disabled = self.node.block_updates or len(inp.connections) > 0`
(`control.py` line 82). -/
def guiDisabled (inp : GuiInput) : Bool :=
  inp.blockUpdates || inp.connections > 0

/-- The value shown in the widget: `inp.val`, replaced by the
state-recovered value when it is `None` (`control.py` lines 92-93). -/
def guiEffVal (inp : GuiInput) : PyVal :=
  match inp.val with
  | PyVal.vnone => inp.stateVal
  | v => v

/-- `description = inp.label_str if inp.label_str != "" else inp.type_`
(`control.py` line 147). -/
def guiDescription (inp : GuiInput) : String :=
  if inp.label_str == "" then inp.type_ else inp.label_str

/-- The batch toggle button (`control.py` lines 151-159); the
`inp.dtype is None` clause of its `disabled` flag is constantly false
because `NodeInput` always sets a dtype. -/
def batchButton (inp : GuiInput) : IpyWidget :=
  IpyWidget.toggleButton ("Batched") (!inp.isBatchingNode) inp.dtype.batched

/-- The reset button (`control.py` lines 162-168). -/
def resetButtonOf (inp : GuiInput) : IpyWidget :=
  IpyWidget.resetButton (inp.connections > 0)

/-- One row of `NodeController.input_field_list` (`control.py` lines
77-173): a label, the dispatched input widget, the batch toggle button and
the reset button.  The serialized dtype state round-trips, so
`dtype_state` carries `batched = dtype.batched`. -/
def inputRow (inp : GuiInput) : List IpyWidget :=
  [IpyWidget.labelW (guiDescription inp),
   chooseInputWidget (className inp.dtype.cls) inp.dtype.batched
     (guiEffVal inp) inp.dtype.items (guiDisabled inp),
   batchButton inp,
   resetButtonOf inp]

/-- `NodeController.input_field_list`: one row per input port. -/
def input_field_list (inputs : List GuiInput) : List (List IpyWidget) :=
  inputs.map inputRow

/-- Unfolding lemma: `_other_types_are_subset` holds iff every class on the
left is a subclass of some class on the right. -/
theorem otherTypesAreSubset_iff (other reference : List PyClass) :
    otherTypesAreSubset other reference = true ↔
      ∀ o ∈ other, ∃ r ∈ reference, issubclassPlain o r = true := by
  simp [otherTypesAreSubset, List.all_eq_true, List.any_eq_true]

/-- Keys of concatenated dicts. -/
theorem dictKeys_append (d e : List (String × PyVal)) :
    dictKeys (d ++ e) = dictKeys d ++ dictKeys e :=
  List.map_append _ _ _

/-- `d[k] = v` on a dict without key `k` appends the new pair. -/
theorem dictSet_of_not_mem (d : List (String × PyVal)) (k : String)
    (v : PyVal) (h : k ∉ dictKeys d) : dictSet d k v = d ++ [(k, v)] := by
  unfold dictSet
  rw [if_neg]
  simpa using h

/-! ## Claim C1: `DType.matches` -/

/-- **C1** counterexample: the claim asserts that for every `DType` and
every plain value, `matches` returns `True` iff the value is an instance of
some valid class; but `Choice` overrides `_instance_matches` with
membership in `items`, so a `Choice` dtype with `valid_classes = [int]` and
empty `items` rejects the integer `0` even though `0` is an instance of a
valid class. -/
theorem matches_instance_clause_cex :
    ¬ (matchesPy ⟨DTypeClass.choice, [PyClass.pInt], false, false, []⟩
          (PyArg.v (PyVal.vobj PyClass.pInt 0)) = true
        ↔ ∃ c ∈ [PyClass.pInt],
            isinstance (PyVal.vobj PyClass.pInt 0) c = true) := by
  decide

/-- **C1** (amended): `DType.matches` decides type compatibility as the
claim states, except that the plain-instance clause holds for the dtypes
that inherit the base `_instance_matches` (`Choice` and `BatchedData`
override it).  For every dtype `self`: a `DType` argument matches iff it is
an instance of `self`'s class, its valid classes are classwise subclasses
of `self`'s, and it does not allow `None` unless `self` does; `None`
matches iff `allow_none`; a plain non-`None` value matches iff it is an
instance of some valid class, provided `self` is not a `Choice` or
`BatchedData`. -/
theorem matches_characterization (self : DTypeVal) :
    (∀ d : DTypeVal,
        matchesPy self (PyArg.dt d) = true ↔
          (dtypeIsSubclass d.cls self.cls = true
            ∧ (∀ o ∈ d.valid_classes, ∃ r ∈ self.valid_classes,
                issubclassPlain o r = true)
            ∧ ¬(d.allow_none = true ∧ self.allow_none = false)))
    ∧ matchesPy self (PyArg.v PyVal.vnone) = self.allow_none
    ∧ (self.cls ≠ DTypeClass.choice → self.cls ≠ DTypeClass.batchedData →
        ∀ x : PyVal, x ≠ PyVal.vnone →
          (matchesPy self (PyArg.v x) = true ↔
            ∃ c ∈ self.valid_classes, isinstance x c = true)) := by
  obtain ⟨cls, vcs, an, bt, its⟩ := self
  refine ⟨?_, rfl, ?_⟩
  · intro d
    show dtypeMatches ⟨cls, vcs, an, bt, its⟩ d = true ↔ _
    unfold dtypeMatches
    by_cases hsub : dtypeIsSubclass d.cls cls = true
    · simp only [hsub, if_true]
      simp only [otherTypesAreSubset, Bool.and_eq_true, List.all_eq_true,
        List.any_eq_true, Bool.not_eq_true']
      constructor
      · rintro ⟨hall, hnone⟩
        refine ⟨trivial, fun o ho => ?_, ?_⟩
        · obtain ⟨r, hr, hrr⟩ := hall o ho
          exact ⟨r, hr, hrr⟩
        · rintro ⟨hd, ha⟩
          rw [hd, ha] at hnone
          simp at hnone
      · rintro ⟨-, hall, hnone⟩
        refine ⟨fun o ho => hall o ho, ?_⟩
        cases hd : d.allow_none <;> cases ha : an <;> simp_all
    · simp [hsub]
  · intro hc hb x hx
    have hred : matchesPy ⟨cls, vcs, an, bt, its⟩ (PyArg.v x)
        = instMatches ⟨cls, vcs, an, bt, its⟩ x := by
      cases x with
      | vnone => exact absurd rfl hx
      | vobj c p => rfl
      | vstr s => rfl
      | vlist xs => rfl
    have hbase : instMatches ⟨cls, vcs, an, bt, its⟩ x
        = instMatchesBase ⟨cls, vcs, an, bt, its⟩ x := by
      cases cls <;>
        first
          | rfl
          | exact absurd rfl hc
          | exact absurd rfl hb
    rw [hred, hbase]
    simp only [instMatchesBase, List.any_eq_true]

/-- Witness for C1: the amended instance clause evaluated at an `Integer`
dtype and a `bool` value (`bool` is a subclass of `int`, so it matches). -/
theorem matches_characterization_witness :
    matchesPy ⟨DTypeClass.integer, [PyClass.pInt], false, false, []⟩
        (PyArg.v (PyVal.vobj PyClass.pBool 0)) = true ↔
      ∃ c ∈ [PyClass.pInt],
        isinstance (PyVal.vobj PyClass.pBool 0) c = true :=
  (matches_characterization
      ⟨DTypeClass.integer, [PyClass.pInt], false, false, []⟩).2.2
    (by decide) (by decide) (PyVal.vobj PyClass.pBool 0)
    (fun h => PyVal.noConfusion h)

/-! ## Claim C2: `dtype_ok` and `ready` -/

/-- **C2**: for every port with the `HasDType` mixin, `dtype_ok` is `True`
when no dtype is set; when a dtype is set and the value is `None` it equals
`dtype.allow_none`; when a dtype is set and the value is not `None` it
forwards to `dtype.valid_val(val)`; and `ready` holds iff both `dtype_ok`
and `otype_ok` hold. -/
theorem dtype_ok_ready_characterization
    (valid_val : DTypeVal → PyVal → Bool) (p : TypedPort) :
    (p.dtype = none → dtype_ok valid_val p = true)
    ∧ (∀ d, p.dtype = some d → p.val = PyVal.vnone →
        dtype_ok valid_val p = d.allow_none)
    ∧ (∀ d, p.dtype = some d → p.val ≠ PyVal.vnone →
        dtype_ok valid_val p = valid_val d p.val)
    ∧ (ready valid_val p = true ↔
        dtype_ok valid_val p = true ∧ p.otype_ok = true) := by
  obtain ⟨dt, v, oo⟩ := p
  refine ⟨?_, ?_, ?_, ?_⟩
  · rintro rfl
    rfl
  · rintro d rfl rfl
    rfl
  · rintro d rfl hv
    cases v with
    | vnone => exact absurd rfl hv
    | vobj c q => rfl
    | vstr s => rfl
    | vlist xs => rfl
  · simp [ready, Bool.and_eq_true]

/-- Witness for C2: a port whose dtype allows `None` and whose value is
`None` is `dtype_ok`. -/
theorem dtype_ok_ready_witness :
    dtype_ok (fun d v => instMatchesBase d v)
      ⟨some ⟨DTypeClass.integer, [PyClass.pInt], true, false, []⟩,
       PyVal.vnone, true⟩ = true := by
  have h := (dtype_ok_ready_characterization
      (fun d v => instMatchesBase d v)
      ⟨some ⟨DTypeClass.integer, [PyClass.pInt], true, false, []⟩,
       PyVal.vnone, true⟩).2.1
    ⟨DTypeClass.integer, [PyClass.pInt], true, false, []⟩ rfl rfl
  rw [h]

/-! ## Claim C3: the batching toggle -/

/-- **C3**: with a dtype set and not batched, `batch` sets `batched`, wraps
`val` into a one-element list exactly when the port has no connections, and
triggers one node update; with a dtype set and batched, `unbatch` clears
`batched`, replaces `val` by its last element exactly when the port has no
connections, and triggers one node update; `batch` on a batched input and
`unbatch` on an unbatched input change nothing. -/
theorem batch_unbatch_toggle (s : NodeInputState) (d : DTypeVal) :
    (s.dtype = some d → d.batched = false →
        batch s = { s with
          dtype := some { d with batched := true },
          val := if s.connections == 0 then PyVal.vlist [s.val] else s.val,
          updates := s.updates + 1 })
    ∧ (s.dtype = some d → d.batched = true → s.connections ≠ 0 →
        unbatch s = some { s with
          dtype := some { d with batched := false },
          updates := s.updates + 1 })
    ∧ (s.dtype = some d → d.batched = true → s.connections = 0 →
        ∀ v, pyLast s.val = some v →
          unbatch s = some { s with
            dtype := some { d with batched := false },
            val := v,
            updates := s.updates + 1 })
    ∧ (s.dtype = some d → d.batched = true → batch s = s)
    ∧ (s.dtype = some d → d.batched = false → unbatch s = some s) := by
  obtain ⟨dt, v, conns, u⟩ := s
  refine ⟨?_, ?_, ?_, ?_, ?_⟩
  · rintro rfl hb
    simp [batch, hb]
  · rintro rfl hb hc
    have hc' : (conns == 0) = false := by simpa using hc
    simp [unbatch, hb, hc']
  · rintro rfl hb hc v' hv
    subst hc
    simp [unbatch, hb, hv]
  · rintro rfl hb
    simp [batch, hb]
  · rintro rfl hb
    simp [unbatch, hb]

/-- Witness for C3: batching an unconnected, unbatched `Integer` input
wraps its value and bumps the update counter. -/
theorem batch_unbatch_toggle_witness :
    batch ⟨some ⟨DTypeClass.integer, [PyClass.pInt], false, false, []⟩,
        PyVal.vobj PyClass.pInt 7, 0, 0⟩
      = ⟨some ⟨DTypeClass.integer, [PyClass.pInt], false, true, []⟩,
        PyVal.vlist [PyVal.vobj PyClass.pInt 7], 0, 1⟩ := by
  have h := (batch_unbatch_toggle
      ⟨some ⟨DTypeClass.integer, [PyClass.pInt], false, false, []⟩,
        PyVal.vobj PyClass.pInt 7, 0, 0⟩
      ⟨DTypeClass.integer, [PyClass.pInt], false, false, []⟩).1 rfl rfl
  simpa using h

/-! ## Claim C4: unbatch is a left inverse of batch -/

/-- **C4**: on an unconnected input with an unbatched dtype, `batch` then
`unbatch` succeeds, restores the original `val`, and leaves the dtype
unbatched. -/
theorem unbatch_batch_roundtrip (s : NodeInputState) (d : DTypeVal)
    (hd : s.dtype = some d) (hb : d.batched = false)
    (hc : s.connections = 0) :
    ∃ s', unbatch (batch s) = some s'
      ∧ s'.val = s.val ∧ s'.dtype = some { d with batched := false } := by
  obtain ⟨dt, v, conns, u⟩ := s
  cases hd
  subst hc
  refine ⟨⟨some { d with batched := false }, v, 0, u + 2⟩, ?_, rfl, rfl⟩
  simp [batch, unbatch, hb, pyLast]

/-! ## Claim C5: widget dispatch in `input_field_list` -/

/-- **C5**: `input_field_list` binds one row per input port, each row being
exactly a label, the dispatched input widget, a batch toggle button and a
reset button; the widget is chosen by the fixed dispatch on the dtype's
name: batched dtypes get a disabled `Text` labelled with the dtype name,
`Integer` an `IntText`, `Float` a `FloatText`, `Boolean` a `Checkbox`,
`Choice` a `Dropdown` with options `dtype.items`, `String` and `Char` a
`Text`, and every other dtype a disabled `Text`. -/
theorem input_field_list_dispatch (inputs : List GuiInput) (inp : GuiInput) :
    (∀ i : Nat, (input_field_list inputs)[i]? = (inputs[i]?).map inputRow)
    ∧ (inputRow inp).length = 4
    ∧ (inp.dtype.batched = true →
        inputRow inp = [IpyWidget.labelW (guiDescription inp),
          IpyWidget.textW ("Batched " ++ className inp.dtype.cls) true,
          batchButton inp, resetButtonOf inp])
    ∧ (inp.dtype.batched = false → inp.dtype.cls = DTypeClass.integer →
        inputRow inp = [IpyWidget.labelW (guiDescription inp),
          IpyWidget.intText (guiEffVal inp) (guiDisabled inp),
          batchButton inp, resetButtonOf inp])
    ∧ (inp.dtype.batched = false → inp.dtype.cls = DTypeClass.float →
        inputRow inp = [IpyWidget.labelW (guiDescription inp),
          IpyWidget.floatText (guiEffVal inp) (guiDisabled inp),
          batchButton inp, resetButtonOf inp])
    ∧ (inp.dtype.batched = false → inp.dtype.cls = DTypeClass.boolean →
        inputRow inp = [IpyWidget.labelW (guiDescription inp),
          IpyWidget.checkbox (guiEffVal inp) (guiDisabled inp),
          batchButton inp, resetButtonOf inp])
    ∧ (inp.dtype.batched = false → inp.dtype.cls = DTypeClass.choice →
        inputRow inp = [IpyWidget.labelW (guiDescription inp),
          IpyWidget.dropdown (guiEffVal inp) inp.dtype.items
            (guiDisabled inp),
          batchButton inp, resetButtonOf inp])
    ∧ (inp.dtype.batched = false →
        (inp.dtype.cls = DTypeClass.string ∨
          inp.dtype.cls = DTypeClass.char) →
        inputRow inp = [IpyWidget.labelW (guiDescription inp),
          IpyWidget.textW (pyStr (guiEffVal inp)) (guiDisabled inp),
          batchButton inp, resetButtonOf inp])
    ∧ (inp.dtype.batched = false →
        inp.dtype.cls ≠ DTypeClass.integer →
        inp.dtype.cls ≠ DTypeClass.float →
        inp.dtype.cls ≠ DTypeClass.boolean →
        inp.dtype.cls ≠ DTypeClass.choice →
        inp.dtype.cls ≠ DTypeClass.string →
        inp.dtype.cls ≠ DTypeClass.char →
        inputRow inp = [IpyWidget.labelW (guiDescription inp),
          IpyWidget.textW (pyStr (guiEffVal inp)) true,
          batchButton inp, resetButtonOf inp]) := by
  obtain ⟨⟨cls, vcs, an, bt, its⟩, v, sv, conns, ls, ts, bu, ibn⟩ := inp
  refine ⟨?_, rfl, ?_, ?_, ?_, ?_, ?_, ?_, ?_⟩
  · intro i
    simp [input_field_list, List.getElem?_map]
  · intro hb
    subst hb
    rfl
  · intro hb hcls
    subst hb
    subst hcls
    rfl
  · intro hb hcls
    subst hb
    subst hcls
    rfl
  · intro hb hcls
    subst hb
    subst hcls
    rfl
  · intro hb hcls
    subst hb
    subst hcls
    rfl
  · intro hb hcls
    subst hb
    rcases hcls with hcls | hcls <;> subst hcls <;> rfl
  · intro hb h1 h2 h3 h4 h5 h6
    subst hb
    cases cls
    case base => rfl
    case data => rfl
    case batchedData => rfl
    case integer => exact absurd rfl h1
    case float => exact absurd rfl h2
    case boolean => exact absurd rfl h3
    case char => exact absurd rfl h6
    case string => exact absurd rfl h5
    case choice => exact absurd rfl h4
    case listD => rfl
    case untyped => rfl

/-- Witness for C5: a batched `Integer` input renders as a disabled `Text`
labelled `Batched Integer`. -/
theorem input_field_list_dispatch_witness :
    inputRow ⟨⟨DTypeClass.integer, [PyClass.pInt], false, true, []⟩,
        PyVal.vobj PyClass.pInt 3, PyVal.vobj PyClass.pInt 0, 0,
        ("n"), ("data"), false, true⟩
      = [IpyWidget.labelW (guiDescription
          ⟨⟨DTypeClass.integer, [PyClass.pInt], false, true, []⟩,
            PyVal.vobj PyClass.pInt 3, PyVal.vobj PyClass.pInt 0, 0,
            ("n"), ("data"), false, true⟩),
         IpyWidget.textW ("Batched Integer") true,
         batchButton ⟨⟨DTypeClass.integer, [PyClass.pInt], false, true, []⟩,
            PyVal.vobj PyClass.pInt 3, PyVal.vobj PyClass.pInt 0, 0,
            ("n"), ("data"), false, true⟩,
         resetButtonOf ⟨⟨DTypeClass.integer, [PyClass.pInt], false, true,
            []⟩, PyVal.vobj PyClass.pInt 3, PyVal.vobj PyClass.pInt 0, 0,
            ("n"), ("data"), false, true⟩] :=
  (input_field_list_dispatch []
      ⟨⟨DTypeClass.integer, [PyClass.pInt], false, true, []⟩,
        PyVal.vobj PyClass.pInt 3, PyVal.vobj PyClass.pInt 0, 0,
        ("n"), ("data"), false, true⟩).2.2.1 rfl

/-! ## Claim C7: serialization only adds keys -/

/-- **C7**: port serialization extends the core dict without touching it:
`NodeOutput.data` is the core dict followed by the two dtype entries
exactly when a dtype is present and the two otype entries exactly when an
otype is present; `NodeInput.data` adds only the otype entries, exactly
when an otype is present.  (The hypotheses say the core serialization does
not itself use the four added keys, which is what makes `d[k] = v` a pure
extension.) -/
theorem port_data_only_adds_keys (ser : DTypeVal → PyVal)
    (core : List (String × PyVal)) (dtype : Option DTypeVal)
    (otype : Option OTypeVal)
    (h1 : ("dtype") ∉ dictKeys core)
    (h2 : ("dtype state") ∉ dictKeys core)
    (h3 : ("otype_namespace") ∉ dictKeys core)
    (h4 : ("otype_name") ∉ dictKeys core) :
    nodeOutputData ser core dtype otype
        = (core
          ++ (match dtype with
              | some dt => [(("dtype"), PyVal.vstr (dtypeStr dt)),
                  (("dtype state"), ser dt)]
              | none => []))
          ++ (match otype with
              | some ot =>
                  [(("otype_namespace"), PyVal.vstr ot.namespaceName),
                   (("otype_name"), PyVal.vstr ot.name)]
              | none => [])
    ∧ nodeInputData core otype
        = core
          ++ (match otype with
              | some ot =>
                  [(("otype_namespace"), PyVal.vstr ot.namespaceName),
                   (("otype_name"), PyVal.vstr ot.name)]
              | none => []) := by
  have hstep : ∀ (d : List (String × PyVal)) (ot : OTypeVal),
      ("otype_namespace") ∉ dictKeys d → ("otype_name") ∉ dictKeys d →
      dictSet (dictSet d ("otype_namespace") (PyVal.vstr ot.namespaceName))
          ("otype_name") (PyVal.vstr ot.name)
        = d ++ [(("otype_namespace"), PyVal.vstr ot.namespaceName),
            (("otype_name"), PyVal.vstr ot.name)] := by
    intro d ot hns hn
    rw [dictSet_of_not_mem _ _ _ hns, dictSet_of_not_mem, List.append_assoc]
    · rfl
    · rw [dictKeys_append]
      simp only [List.mem_append, dictKeys, List.map_cons, List.map_nil,
        List.mem_singleton]
      rintro (h | h)
      · exact hn h
      · exact absurd h (by decide)
  constructor
  · cases dtype with
    | none =>
      cases otype with
      | none => simp [nodeOutputData]
      | some ot => simpa [nodeOutputData] using hstep core ot h3 h4
    | some dt =>
      have hd : dictSet (dictSet core ("dtype") (PyVal.vstr (dtypeStr dt)))
          ("dtype state") (ser dt)
          = core ++ [(("dtype"), PyVal.vstr (dtypeStr dt)),
              (("dtype state"), ser dt)] := by
        rw [dictSet_of_not_mem _ _ _ h1, dictSet_of_not_mem,
          List.append_assoc]
        · rfl
        · rw [dictKeys_append]
          simp only [List.mem_append, dictKeys, List.map_cons, List.map_nil,
            List.mem_singleton]
          rintro (h | h)
          · exact h2 h
          · exact absurd h (by decide)
      cases otype with
      | none =>
        show dictSet (dictSet core _ _) _ _ = _
        rw [hd, List.append_nil]
      | some ot =>
        show dictSet (dictSet (dictSet (dictSet core _ _) _ _) _ _) _ _ = _
        rw [hd, hstep]
        · rw [dictKeys_append]
          simp only [List.mem_append, dictKeys, List.map_cons, List.map_nil,
            List.mem_cons, List.mem_singleton]
          rintro (h | h | h)
          · exact h3 h
          · exact absurd h (by decide)
          · exact absurd h (by decide)
        · rw [dictKeys_append]
          simp only [List.mem_append, dictKeys, List.map_cons, List.map_nil,
            List.mem_cons, List.mem_singleton]
          rintro (h | h | h)
          · exact h4 h
          · exact absurd h (by decide)
          · exact absurd h (by decide)
  · cases otype with
    | none => simp [nodeInputData]
    | some ot => exact hstep core ot h3 h4

/-- Witness for C7: a two-key core dict, a `Float` dtype and an otype. -/
theorem port_data_only_adds_keys_witness :
    nodeOutputData (fun _ => PyVal.vnone)
        [(("type"), PyVal.vstr ("data")), (("label"), PyVal.vstr ("x"))]
        (some ⟨DTypeClass.float, [PyClass.pFloat], false, false, []⟩)
        (some ⟨("onto"), ("length")⟩)
      = [(("type"), PyVal.vstr ("data")), (("label"), PyVal.vstr ("x")),
         (("dtype"), PyVal.vstr ("DType.Float")),
         (("dtype state"), PyVal.vnone),
         (("otype_namespace"), PyVal.vstr ("onto")),
         (("otype_name"), PyVal.vstr ("length"))] := by
  have h := (port_data_only_adds_keys (fun _ => PyVal.vnone)
      [(("type"), PyVal.vstr ("data")), (("label"), PyVal.vstr ("x"))]
      (some ⟨DTypeClass.float, [PyClass.pFloat], false, false, []⟩)
      (some ⟨("onto"), ("length")⟩)
      (by decide) (by decide) (by decide) (by decide)).1
  simpa using h

/-! ## Claim C8: the `DType.__init__` invariant -/

/-- `add_data` records the key it is given. -/
theorem addData_mem_self (ks : List String) (k : String) :
    k ∈ addData ks k := by
  unfold addData
  split
  · next h => simpa using h
  · exact List.mem_append_right _ (List.mem_singleton.mpr rfl)

/-- `add_data` keeps previously recorded keys. -/
theorem addData_mem_mono (ks : List String) (k j : String) (h : j ∈ ks) :
    j ∈ addData ks k := by
  unfold addData
  split
  · exact h
  · exact List.mem_append_left _ h

/-- **C8**: a `DType` constructed with `_load_state = None` stores a
freshly allocated `valid_classes` list (identity `fresh`, hence distinct
from any argument list): a list argument is copied element-wise, a single
class is wrapped into a one-element list, `None` becomes the empty list;
`allow_none` is set from the argument, and both field names are registered
via `add_data`. -/
theorem dtype_init_invariant (fresh : Nat) (vc : VCArg) (an : Bool)
    (keys0 : List String) :
    (dtypeInitFields none fresh vc an keys0).valid_classes.ident = fresh
    ∧ (∀ i els, vc = VCArg.listA i els →
        (dtypeInitFields none fresh vc an keys0).valid_classes.elems = els)
    ∧ (∀ c, vc = VCArg.single c →
        (dtypeInitFields none fresh vc an keys0).valid_classes.elems = [c])
    ∧ (vc = VCArg.noneA →
        (dtypeInitFields none fresh vc an keys0).valid_classes.elems = [])
    ∧ (∀ i, vcArgIdent vc = some i → fresh ≠ i →
        (dtypeInitFields none fresh vc an keys0).valid_classes.ident ≠ i)
    ∧ (dtypeInitFields none fresh vc an keys0).allow_none = an
    ∧ ("valid_classes") ∈ (dtypeInitFields none fresh vc an keys0).data_keys
    ∧ ("allow_none") ∈ (dtypeInitFields none fresh vc an keys0).data_keys
    := by
  refine ⟨?_, ?_, ?_, ?_, ?_, rfl, ?_, ?_⟩
  · cases vc <;> rfl
  · rintro i els rfl
    rfl
  · rintro c rfl
    rfl
  · rintro rfl
    rfl
  · intro i hi hne
    cases vc with
    | noneA => exact Option.noConfusion hi
    | single c => exact Option.noConfusion hi
    | listA j els =>
      have hj : j = i := by simpa [vcArgIdent] using hi
      subst hj
      exact hne
  · exact addData_mem_mono _ _ _ (addData_mem_self _ _)
  · exact addData_mem_self _ _

/-- Witness for C8: initialising from the list `[int]` with identity 3 and
fresh identity 5 copies the elements into a new list. -/
theorem dtype_init_invariant_witness :
    (dtypeInitFields none 5 (VCArg.listA 3 [PyClass.pInt]) true
        [("default")]).valid_classes.elems = [PyClass.pInt]
    ∧ (dtypeInitFields none 5 (VCArg.listA 3 [PyClass.pInt]) true
        [("default")]).valid_classes.ident ≠ 3 :=
  ⟨(dtype_init_invariant 5 (VCArg.listA 3 [PyClass.pInt]) true
      [("default")]).2.1 3 [PyClass.pInt] rfl,
   (dtype_init_invariant 5 (VCArg.listA 3 [PyClass.pInt]) true
      [("default")]).2.2.2.2.1 3 rfl (by decide)⟩

/-! ## Claim C9: `DType.from_str` -/

/-- **C9**: `from_str` is a total lookup: it returns class `C` exactly when
the input is `DType.` followed by one of the eight registered names
(`Boolean`, `Char`, `Choice`, `Data`, `Float`, `Integer`, `List`,
`String`), and `None` for every other string, in particular for
`DType.BatchedData` and `DType.Untyped`. -/
theorem from_str_lookup (s : String) :
    (∀ c : DTypeClass, from_str s = some c ↔
        (c ∈ fromStrClasses ∧ s = "DType." ++ className c))
    ∧ ((∀ c ∈ fromStrClasses, s ≠ "DType." ++ className c) →
        from_str s = none)
    ∧ from_str ("DType.BatchedData") = none
    ∧ from_str ("DType.Untyped") = none := by
  by_cases h1 : s = "DType.Boolean"
  · subst h1
    decide
  by_cases h2 : s = "DType.Char"
  · subst h2
    decide
  by_cases h3 : s = "DType.Choice"
  · subst h3
    decide
  by_cases h4 : s = "DType.Data"
  · subst h4
    decide
  by_cases h5 : s = "DType.Float"
  · subst h5
    decide
  by_cases h6 : s = "DType.Integer"
  · subst h6
    decide
  by_cases h7 : s = "DType.List"
  · subst h7
    decide
  by_cases h8 : s = "DType.String"
  · subst h8
    decide
  have hnone : from_str s = none := by
    simp [from_str, fromStrClasses, List.findSome?, className, h1, h2, h3,
      h4, h5, h6, h7, h8]
  refine ⟨?_, fun _ => hnone, by decide, by decide⟩
  intro c
  rw [hnone]
  constructor
  · intro h
    exact Option.noConfusion h
  · rintro ⟨hcm, hs⟩
    exfalso
    have hc : c = DTypeClass.boolean ∨ c = DTypeClass.char
        ∨ c = DTypeClass.choice ∨ c = DTypeClass.data
        ∨ c = DTypeClass.float ∨ c = DTypeClass.integer
        ∨ c = DTypeClass.listD ∨ c = DTypeClass.string := by
      simpa [fromStrClasses] using hcm
    rcases hc with rfl | rfl | rfl | rfl | rfl | rfl | rfl | rfl
    · exact h1 hs
    · exact h2 hs
    · exact h3 hs
    · exact h4 hs
    · exact h5 hs
    · exact h6 hs
    · exact h7 hs
    · exact h8 hs

/-- Witness for C9: `from_str` recovers the `Float` class from its rendered
name and returns `None` on a string matching no registered name. -/
theorem from_str_lookup_witness :
    (from_str ("DType.Float") = some DTypeClass.float ↔
      (DTypeClass.float ∈ fromStrClasses
        ∧ ("DType.Float") = "DType." ++ className DTypeClass.float))
    ∧ from_str ("foo") = none :=
  ⟨(from_str_lookup ("DType.Float")).1 DTypeClass.float,
   (from_str_lookup ("foo")).2.1 (by decide)⟩

/-! ## Claim C6: `BatchedData` construction and matching -/

/-- **C6**: `BatchedData.__init__` raises `ValueError` iff both
`batched_dtype` and `valid_classes` are given; a `batched_dtype` donates
its `valid_classes`; and `BatchedData._instance_matches` accepts exactly
the lists all of whose element types are subclasses of some valid class
(so the empty list always matches, and every non-list is rejected). -/
theorem batchedData_props (bd : Option DTypeVal) (vc : VCArg) (an : Bool)
    (d : DTypeVal) (x : PyVal) :
    ((∃ e, batchedDataInit bd vc an = Except.error e) ↔
      (bd ≠ none ∧ vc ≠ VCArg.noneA))
    ∧ (∀ b, bd = some b → vc = VCArg.noneA →
        ∃ r, batchedDataInit bd vc an = Except.ok r
          ∧ r.valid_classes = b.valid_classes)
    ∧ (d.cls = DTypeClass.batchedData →
        (instMatches d x = true ↔
          ∃ xs, x = PyVal.vlist xs
            ∧ ∀ v ∈ xs, ∃ c ∈ d.valid_classes,
                issubclassPlain (typeOf v) c = true))
    ∧ (d.cls = DTypeClass.batchedData →
        instMatches d (PyVal.vlist []) = true) := by
  have hred : d.cls = DTypeClass.batchedData →
      ∀ y, instMatches d y = instMatchesBatched d y := by
    intro hcls y
    obtain ⟨cls, vcs, dan, bt, its⟩ := d
    cases hcls
    rfl
  refine ⟨?_, ?_, ?_, ?_⟩
  · constructor
    · rintro ⟨e, he⟩
      cases bd with
      | none => simp [batchedDataInit] at he
      | some b =>
        cases vc with
        | noneA => simp [batchedDataInit] at he
        | single c =>
            exact ⟨fun h => Option.noConfusion h,
              fun h => VCArg.noConfusion h⟩
        | listA i els =>
            exact ⟨fun h => Option.noConfusion h,
              fun h => VCArg.noConfusion h⟩
    · rintro ⟨h1, h2⟩
      cases bd with
      | none => exact absurd rfl h1
      | some b =>
        cases vc with
        | noneA => exact absurd rfl h2
        | single c => exact ⟨_, rfl⟩
        | listA i els => exact ⟨_, rfl⟩
  · rintro b rfl rfl
    exact ⟨_, rfl, rfl⟩
  · intro hcls
    rw [hred hcls]
    cases x with
    | vlist xs =>
      simp only [instMatchesBatched, otherTypesAreSubset_iff]
      constructor
      · intro h
        exact ⟨xs, rfl, fun v hv => h (typeOf v) (List.mem_map_of_mem _ hv)⟩
      · rintro ⟨xs', hx, h⟩
        cases hx
        intro o ho
        obtain ⟨v, hv, rfl⟩ := List.mem_map.mp ho
        exact h v hv
    | vnone =>
      simp only [instMatchesBatched, Bool.false_eq_true, false_iff]
      rintro ⟨xs, hx, -⟩
      exact PyVal.noConfusion hx
    | vobj c q =>
      simp only [instMatchesBatched, Bool.false_eq_true, false_iff]
      rintro ⟨xs, hx, -⟩
      exact PyVal.noConfusion hx
    | vstr s =>
      simp only [instMatchesBatched, Bool.false_eq_true, false_iff]
      rintro ⟨xs, hx, -⟩
      exact PyVal.noConfusion hx
  · intro hcls
    rw [hred hcls]
    obtain ⟨cls, vcs, dan, bt, its⟩ := d
    rfl

/-- Witness for C6: building a `BatchedData` from an existing `Data` dtype
copies that dtype's valid classes. -/
theorem batchedData_props_witness :
    ∃ r, batchedDataInit
          (some ⟨DTypeClass.data, [PyClass.pInt], false, false, []⟩)
          VCArg.noneA false = Except.ok r
        ∧ r.valid_classes = [PyClass.pInt] :=
  (batchedData_props
      (some ⟨DTypeClass.data, [PyClass.pInt], false, false, []⟩)
      VCArg.noneA false
      ⟨DTypeClass.batchedData, [], false, false, []⟩ PyVal.vnone).2.1
    ⟨DTypeClass.data, [PyClass.pInt], false, false, []⟩ rfl rfl

/-- Witness for C4: the round trip on a concrete string-valued input. -/
theorem unbatch_batch_roundtrip_witness :
    ∃ s', unbatch (batch ⟨some ⟨DTypeClass.string, [PyClass.pStr], false,
        false, []⟩, PyVal.vstr ("x"), 0, 0⟩) = some s'
      ∧ s'.val = PyVal.vstr ("x")
      ∧ s'.dtype = some ⟨DTypeClass.string, [PyClass.pStr], false, false,
          []⟩ :=
  unbatch_batch_roundtrip
    ⟨some ⟨DTypeClass.string, [PyClass.pStr], false, false, []⟩,
      PyVal.vstr ("x"), 0, 0⟩
    ⟨DTypeClass.string, [PyClass.pStr], false, false, []⟩ rfl rfl rfl

end Ironflow
